import Mathlib

/-!
Verification of the Credit Ledger and Payment Lifecycle Tracker of this
repository, shallowly embedded in Lean from the Python sources under
`backend/shared/payments` and `backend/shared/credits`.

Times are modelled as natural-number timestamps passed explicitly where the
Python calls `datetime.utcnow()`; the payment store and the ledger store are
modelled as explicit values threaded through the operations.
-/

namespace CrispyPancake

/-! ## Payment lifecycle tracker — `shared/payments/tracker.py` -/

/-- Lifecycle status of a payment record (`PaymentRecordStatus`). -/
inductive PaymentRecordStatus where
  | pending
  | processing
  | completed
  | failed
  | expired
  | refunded
  | partiallyRefunded
  | cancelled
deriving DecidableEq

/-- A payment record (`PaymentRecord` dataclass); the fields the tracker
operations touch. `amount_usd` (a derived float) and the free-form metadata
dict are not modelled. -/
structure PaymentRecord where
  id : String
  user_id : String
  amount_cents : Int
  credits_to_add : Int
  status : PaymentRecordStatus
  provider : String
  provider_session_id : Option String := none
  provider_payment_id : Option String := none
  credits_added : Bool := false
  credits_added_at : Option Nat := none
  credit_transaction_id : Option String := none
  refund_amount_cents : Int := 0
  refund_reason : Option String := none
  refunded_at : Option Nat := none
  error_message : Option String := none
  error_code : Option String := none
  completed_at : Option Nat := none
  expires_at : Option Nat := none
  updated_at : Nat := 0
deriving DecidableEq

/-- The payment store, keyed lookups done by list search
(`PaymentStore.get_by_id` / `get_by_session_id`). -/
def get_by_id (store : List PaymentRecord) (payment_id : String) :
    Option PaymentRecord :=
  store.find? (fun r => r.id == payment_id)

def get_by_session_id (store : List PaymentRecord) (session_id : String) :
    Option PaymentRecord :=
  store.find? (fun r => r.provider_session_id == some session_id)

/-- `PaymentStore.update`: replace the row with the same id. -/
def storeUpdate (store : List PaymentRecord) (payment : PaymentRecord) :
    List PaymentRecord :=
  store.map (fun r => if r.id == payment.id then payment else r)

/-- `PaymentTracker.is_duplicate`: true iff a record for this session exists
and already has `credits_added`. -/
def is_duplicate (store : List PaymentRecord) (session_id : String) : Bool :=
  match get_by_session_id store session_id with
  | some existing => existing.credits_added
  | none => false

/-- `if provider_payment_id: payment.provider_payment_id = provider_payment_id`
— overwrite only when a new provider payment id is supplied. -/
def updateProviderPaymentId (old newId : Option String) : Option String :=
  match newId with
  | some s => some s
  | none => old

/-- `PaymentTracker.mark_processing`. -/
def mark_processing (store : List PaymentRecord) (now : Nat)
    (payment_id : String) (provider_payment_id : Option String) :
    Option PaymentRecord × List PaymentRecord :=
  match get_by_id store payment_id with
  | none => (none, store)
  | some payment =>
    let payment := { payment with
      status := PaymentRecordStatus.processing
      updated_at := now
      provider_payment_id :=
        updateProviderPaymentId payment.provider_payment_id provider_payment_id }
    (some payment, storeUpdate store payment)

/-- `PaymentTracker.mark_completed`. -/
def mark_completed (store : List PaymentRecord) (now : Nat)
    (payment_id : String) (provider_payment_id : Option String) :
    Option PaymentRecord × List PaymentRecord :=
  match get_by_id store payment_id with
  | none => (none, store)
  | some payment =>
    let payment := { payment with
      status := PaymentRecordStatus.completed
      completed_at := some now
      updated_at := now
      provider_payment_id :=
        updateProviderPaymentId payment.provider_payment_id provider_payment_id }
    (some payment, storeUpdate store payment)

/-- `PaymentTracker.mark_credits_added`: sets the flag and records the linked
ledger transaction id (assigned unconditionally, as in the source). -/
def mark_credits_added (store : List PaymentRecord) (now : Nat)
    (payment_id : String) (credit_transaction_id : Option String) :
    Option PaymentRecord × List PaymentRecord :=
  match get_by_id store payment_id with
  | none => (none, store)
  | some payment =>
    let payment := { payment with
      credits_added := true
      credits_added_at := some now
      credit_transaction_id := credit_transaction_id
      updated_at := now }
    (some payment, storeUpdate store payment)

/-- `PaymentTracker.mark_failed`. -/
def mark_failed (store : List PaymentRecord) (now : Nat)
    (payment_id : String) (error_message error_code : Option String) :
    Option PaymentRecord × List PaymentRecord :=
  match get_by_id store payment_id with
  | none => (none, store)
  | some payment =>
    let payment := { payment with
      status := PaymentRecordStatus.failed
      error_message := error_message
      error_code := error_code
      updated_at := now }
    (some payment, storeUpdate store payment)

/-- `PaymentTracker.mark_expired`. -/
def mark_expired (store : List PaymentRecord) (now : Nat)
    (payment_id : String) : Option PaymentRecord × List PaymentRecord :=
  match get_by_id store payment_id with
  | none => (none, store)
  | some payment =>
    let payment := { payment with
      status := PaymentRecordStatus.expired
      updated_at := now }
    (some payment, storeUpdate store payment)

/-- `PaymentTracker.mark_refunded`. -/
def mark_refunded (store : List PaymentRecord) (now : Nat)
    (payment_id : String) (refund_amount_cents : Int)
    (reason : Option String) (partialFlag : Bool) :
    Option PaymentRecord × List PaymentRecord :=
  match get_by_id store payment_id with
  | none => (none, store)
  | some payment =>
    let payment := { payment with
      status :=
        if partialFlag then PaymentRecordStatus.partiallyRefunded
        else PaymentRecordStatus.refunded
      refund_amount_cents := refund_amount_cents
      refund_reason := reason
      refunded_at := some now
      updated_at := now }
    (some payment, storeUpdate store payment)

/-- A payment record that has already failed, used to exercise the
transition behaviour of `mark_completed`. -/
def failedRecord : PaymentRecord :=
  { id := "p1", user_id := "u1", amount_cents := 999, credits_to_add := 150,
    status := PaymentRecordStatus.failed, provider := "stripe",
    provider_session_id := some "cs_1" }

/-! ## Credit ledger — `shared/credits/models.py`, `exceptions.py`,
`providers/supabase.py` -/

/-- `TransactionType` enum (models.py). -/
inductive TransactionType where
  | purchase
  | signup_bonus
  | referral_bonus
  | deduction
  | refund
  | admin_adjustment
  | promotion
deriving DecidableEq

/-- `CreditTransaction` pydantic model (models.py); the datetime and metadata
fields are not modelled. -/
structure CreditTransaction where
  id : Option String
  user_id : String
  amount : Int
  balance_before : Int
  balance_after : Int
  transaction_type : TransactionType
  description : String
deriving DecidableEq

/-- The pydantic validator `CreditTransaction.validate_balance_after`:
accepts exactly when `balance_after = balance_before + amount`. -/
def validate_balance_after (balance_before amount balance_after : Int) : Bool :=
  balance_after == balance_before + amount

/-- The error taxonomy of `shared/credits/exceptions.py`. -/
inductive CreditError where
  | invalidTransaction (message : String)
  | insufficientCredits (required available shortage : Int)
  | providerError (message : String)
deriving DecidableEq

/-- `InsufficientCreditsError.__init__` computes
`shortage = required - available` (exceptions.py). -/
def mkInsufficientCreditsError (required available : Int) : CreditError :=
  CreditError.insufficientCredits required available (required - available)

/-- The ledger store: the user's balance plus the append-only
`credit_transactions` log. -/
structure LedgerState where
  balance : Int
  txLog : List CreditTransaction
deriving DecidableEq

/-- Shape of the data returned by the credit RPC functions, as read by
`deduct_credits` / `add_credits` (`data.get('success')`, `balance_before`,
`balance_after`, `current_balance`, `transaction_id`, `error`). -/
structure RpcResponse where
  success : Bool
  error : String
  transaction_id : Option String
  balance_before : Int
  balance_after : Int
  current_balance : Int
deriving DecidableEq

def charsStartsWith : List Char → List Char → Bool
  | [], _ => true
  | _ :: _, [] => false
  | a :: as, b :: bs => a == b && charsStartsWith as bs

def charsHasSub (needle : List Char) : List Char → Bool
  | [] => needle.isEmpty
  | b :: bs => charsStartsWith needle (b :: bs) || charsHasSub needle bs

/-- `'insufficient' in error_msg.lower()` (supabase.py line 182). -/
def containsInsufficient (message : String) : Bool :=
  charsHasSub "insufficient".toList (message.toList.map Char.toLower)

/-- Modelled from the spec: the stored procedure `deduct_user_credits`
(declared in supabase.py and the database setup scripts; `migration.sql`
itself is not under src). Per the spec it atomically reads the balance,
fails when `balance < amount` without recording anything, and otherwise
writes the decremented balance together with the transaction row. -/
def rpc_deduct_user_credits (st : LedgerState) (user_id : String)
    (amount : Int) (description : String) : RpcResponse × LedgerState :=
  if st.balance < amount then
    ({ success := false, error := "insufficient credits",
       transaction_id := none, balance_before := st.balance,
       balance_after := st.balance, current_balance := st.balance }, st)
  else
    let newBalance := st.balance - amount
    let txId := "tx" ++ toString st.txLog.length
    let row : CreditTransaction :=
      { id := some txId, user_id := user_id, amount := -amount,
        balance_before := st.balance, balance_after := newBalance,
        transaction_type := TransactionType.deduction,
        description := description }
    ({ success := true, error := "", transaction_id := some txId,
       balance_before := st.balance, balance_after := newBalance,
       current_balance := newBalance },
     { balance := newBalance, txLog := row :: st.txLog })

/-- Modelled from the spec: the stored procedure `add_user_credits`
(declared in supabase.py and the database setup scripts; `migration.sql`
itself is not under src). It atomically writes the incremented balance and
the transaction row. -/
def rpc_add_user_credits (st : LedgerState) (user_id : String) (amount : Int)
    (transaction_type : TransactionType) (description : String) :
    RpcResponse × LedgerState :=
  let newBalance := st.balance + amount
  let txId := "tx" ++ toString st.txLog.length
  let row : CreditTransaction :=
    { id := some txId, user_id := user_id, amount := amount,
      balance_before := st.balance, balance_after := newBalance,
      transaction_type := transaction_type, description := description }
  ({ success := true, error := "", transaction_id := some txId,
     balance_before := st.balance, balance_after := newBalance,
     current_balance := newBalance },
   { balance := newBalance, txLog := row :: st.txLog })

/-- `SupabaseCreditManager.deduct_credits`: validates the amount, calls the
RPC, maps an insufficient-funds failure to `InsufficientCreditsError`, and
builds the `CreditTransaction` (whose pydantic validator runs on
construction). -/
def deduct_credits (st : LedgerState) (user_id : String) (amount : Int)
    (description : String) :
    Except CreditError CreditTransaction × LedgerState :=
  if amount ≤ 0 then
    (Except.error
      (CreditError.invalidTransaction "Deduction amount must be positive"), st)
  else
    let (resp, st2) := rpc_deduct_user_credits st user_id amount description
    if resp.success then
      let tx : CreditTransaction :=
        { id := resp.transaction_id, user_id := user_id, amount := -amount,
          balance_before := resp.balance_before,
          balance_after := resp.balance_after,
          transaction_type := TransactionType.deduction,
          description := description }
      if validate_balance_after tx.balance_before tx.amount tx.balance_after
      then (Except.ok tx, st2)
      else (Except.error (CreditError.providerError "balance mismatch"), st2)
    else
      let err :=
        if containsInsufficient resp.error then
          mkInsufficientCreditsError amount resp.current_balance
        else CreditError.providerError resp.error
      (Except.error err, st2)

/-- `SupabaseCreditManager.add_credits`. -/
def add_credits (st : LedgerState) (user_id : String) (amount : Int)
    (transaction_type : TransactionType) (description : String) :
    Except CreditError CreditTransaction × LedgerState :=
  if amount ≤ 0 then
    (Except.error
      (CreditError.invalidTransaction "Addition amount must be positive"), st)
  else
    let (resp, st2) :=
      rpc_add_user_credits st user_id amount transaction_type description
    if resp.success then
      let tx : CreditTransaction :=
        { id := resp.transaction_id, user_id := user_id, amount := amount,
          balance_before := resp.balance_before,
          balance_after := resp.balance_after,
          transaction_type := transaction_type, description := description }
      if validate_balance_after tx.balance_before tx.amount tx.balance_after
      then (Except.ok tx, st2)
      else (Except.error (CreditError.providerError "balance mismatch"), st2)
    else (Except.error (CreditError.providerError resp.error), st2)

/-- One add/deduct call in a sequence against a single account. -/
inductive LedgerOp where
  | add (amount : Int) (transaction_type : TransactionType)
      (description : String)
  | deduct (amount : Int) (description : String)

def applyOp (st : LedgerState) (user_id : String) (op : LedgerOp) :
    LedgerState :=
  match op with
  | LedgerOp.add a t d => (add_credits st user_id a t d).2
  | LedgerOp.deduct a d => (deduct_credits st user_id a d).2

def applyOps (st : LedgerState) (user_id : String) (ops : List LedgerOp) :
    LedgerState :=
  ops.foldl (fun s op => applyOp s user_id op) st

def sumAmounts (log : List CreditTransaction) : Int :=
  (log.map (fun t => t.amount)).sum

/-- The transaction produced by adding 150 credits to a fresh account. -/
def tx150 : CreditTransaction :=
  { id := some "tx0", user_id := "u1", amount := 150, balance_before := 0,
    balance_after := 150, transaction_type := TransactionType.purchase,
    description := "first purchase" }

/-! ## Event correlator — `shared/credits/stripe_service.py` -/

/-- The metadata dict read by the webhook handlers; optional fields mirror
`metadata.get(...)`, the integer fields mirror `int(metadata.get(..., 0))`. -/
structure EventMetadata where
  type : Option String := none
  user_id : Option String := none
  total_credits : Int := 0
  package_id : String := ""
  credits_per_period : Int := 0
  subscription_id : String := ""
deriving DecidableEq

/-- The `data.object` payload of a webhook event
(`event.get('data', \x7b\x7d).get('object', \x7b\x7d)`). -/
structure EventObject where
  id : String := ""
  metadata : EventMetadata := {}
  billing_reason : String := ""
  subscription : Option String := none
  customer_email : Option String := none
deriving DecidableEq

/-- A verified Stripe event: `event.get('type', '')` plus its object. -/
structure StripeEvent where
  type : String := ""
  obj : EventObject := {}
deriving DecidableEq

/-- `WebhookResult` dataclass. -/
structure WebhookResult where
  success : Bool
  event_type : String
  action_taken : Option String := none
  user_id : Option String := none
  credits_added : Int := 0
  error : Option String := none
deriving DecidableEq

/-- `StripeService._handle_checkout_completed`; the add-credits callback is
passed explicitly and threads its own state `σ`, mirroring
`add_credits_callback(user_id, credits, type, description) -> bool`. -/
def handle_checkout_completed {σ : Type} (session : EventObject)
    (cb : String → Int → String → String → σ → Bool × σ) (st : σ) :
    WebhookResult × σ :=
  let metadata := session.metadata
  match metadata.user_id with
  | none =>
    ({ success := false, event_type := "checkout.session.completed",
       error := some "No user_id in metadata" }, st)
  | some user_id =>
    if metadata.type == some "package" then
      if metadata.total_credits > 0 then
        let (ok, st2) := cb user_id metadata.total_credits "purchase"
          ("Purchased " ++ metadata.package_id ++ " package") st
        ({ success := ok, event_type := "checkout.session.completed",
           action_taken := some ("Added " ++ toString metadata.total_credits
             ++ " credits for package " ++ metadata.package_id),
           user_id := some user_id,
           credits_added := if ok then metadata.total_credits else 0 }, st2)
      else
        ({ success := true, event_type := "checkout.session.completed",
           action_taken := some "No credits to add" }, st)
    else if metadata.type == some "subscription" then
      if metadata.credits_per_period > 0 then
        let (ok, st2) := cb user_id metadata.credits_per_period "purchase"
          ("Subscription started: " ++ metadata.subscription_id) st
        ({ success := ok, event_type := "checkout.session.completed",
           action_taken := some ("Added " ++ toString metadata.credits_per_period
             ++ " credits for subscription " ++ metadata.subscription_id),
           user_id := some user_id,
           credits_added := if ok then metadata.credits_per_period else 0 }, st2)
      else
        ({ success := true, event_type := "checkout.session.completed",
           action_taken := some "No credits to add" }, st)
    else
      ({ success := true, event_type := "checkout.session.completed",
         action_taken := some "No credits to add" }, st)

/-- `StripeService._handle_invoice_paid`; `subscriptions` models the
provider-side `stripe.Subscription.retrieve` lookup, giving each
subscription id its metadata. -/
def handle_invoice_paid {σ : Type}
    (subscriptions : List (String × EventMetadata)) (invoice : EventObject)
    (cb : String → Int → String → String → σ → Bool × σ) (st : σ) :
    WebhookResult × σ :=
  if invoice.billing_reason == "subscription_create" then
    ({ success := true, event_type := "invoice.paid",
       action_taken := some "Initial subscription invoice - handled by checkout" },
      st)
  else
    match invoice.subscription with
    | none =>
      ({ success := true, event_type := "invoice.paid",
         action_taken := some "No subscription ID - not a subscription invoice" },
        st)
    | some sub_id =>
      match subscriptions.find? (fun kv => kv.1 == sub_id) with
      | none =>
        ({ success := false, event_type := "invoice.paid",
           error := some "No such subscription" }, st)
      | some kv =>
        let metadata := kv.2
        match metadata.user_id with
        | some user_id =>
          if metadata.credits_per_period > 0 then
            let (ok, st2) := cb user_id metadata.credits_per_period "purchase"
              ("Monthly credits: " ++ metadata.subscription_id) st
            ({ success := ok, event_type := "invoice.paid",
               action_taken := some ("Added "
                 ++ toString metadata.credits_per_period ++ " monthly credits"),
               user_id := some user_id,
               credits_added := if ok then metadata.credits_per_period else 0 },
              st2)
          else
            ({ success := true, event_type := "invoice.paid",
               action_taken := some "No action needed" }, st)
        | none =>
          ({ success := true, event_type := "invoice.paid",
             action_taken := some "No action needed" }, st)

/-- `StripeService._handle_subscription_created` (log-only). -/
def handle_subscription_created (subscription : EventObject) : WebhookResult :=
  { success := true, event_type := "customer.subscription.created",
    action_taken := some ("Subscription " ++ subscription.metadata.subscription_id
      ++ " created"),
    user_id := subscription.metadata.user_id }

/-- `StripeService._handle_subscription_deleted` (log-only). -/
def handle_subscription_deleted (subscription : EventObject) : WebhookResult :=
  { success := true, event_type := "customer.subscription.deleted",
    action_taken := some ("Subscription " ++ subscription.metadata.subscription_id
      ++ " cancelled"),
    user_id := subscription.metadata.user_id }

/-- `StripeService._handle_payment_failed` (log-only). -/
def handle_payment_failed (invoice : EventObject) : WebhookResult :=
  { success := true, event_type := "invoice.payment_failed",
    action_taken := some ("Payment failed for "
      ++ invoice.customer_email.getD "None") }

/-- `StripeService.process_webhook`: dispatch on the event type; every type
outside the five handled ones falls through as not handled. -/
def process_webhook {σ : Type}
    (subscriptions : List (String × EventMetadata)) (event : StripeEvent)
    (cb : String → Int → String → String → σ → Bool × σ) (st : σ) :
    WebhookResult × σ :=
  if event.type == "checkout.session.completed" then
    handle_checkout_completed event.obj cb st
  else if event.type == "invoice.paid" then
    handle_invoice_paid subscriptions event.obj cb st
  else if event.type == "customer.subscription.created" then
    (handle_subscription_created event.obj, st)
  else if event.type == "customer.subscription.deleted" then
    (handle_subscription_deleted event.obj, st)
  else if event.type == "invoice.payment_failed" then
    (handle_payment_failed event.obj, st)
  else
    ({ success := true, event_type := event.type,
       action_taken := some "Event type not handled" }, st)

/-- A checkout session as stored at the provider, as retrieved by
`stripe.checkout.Session.retrieve`. -/
structure ProviderSession where
  id : String
  payment_status : String
  metadata : EventMetadata
deriving DecidableEq

/-- The fields of the `StripeService.verify_checkout_session` result dict
used downstream. -/
structure VerificationResult where
  success : Bool
  payment_status : String
  is_paid : Bool
  metadata : EventMetadata
  error : Option String
deriving DecidableEq

def verify_checkout_session (provider : List ProviderSession)
    (session_id : String) : VerificationResult :=
  match provider.find? (fun s => s.id == session_id) with
  | some session =>
    { success := true, payment_status := session.payment_status,
      is_paid := session.payment_status == "paid",
      metadata := session.metadata, error := none }
  | none =>
    { success := false, payment_status := "", is_paid := false,
      metadata := {}, error := some "Invalid session ID" }

/-- `StripeService.process_missed_payment`: verify the session against the
provider and, when paid, process it like a webhook by calling
`_handle_checkout_completed` directly; as the source's comment notes, the
already-processed check is skipped ("For now, we'll just process it"). -/
def process_missed_payment {σ : Type} (provider : List ProviderSession)
    (session_id : String)
    (cb : String → Int → String → String → σ → Bool × σ) (st : σ) :
    WebhookResult × σ :=
  let verification := verify_checkout_session provider session_id
  if verification.success == false then
    ({ success := false, event_type := "manual_recovery",
       error := some (verification.error.getD "Failed to verify session") }, st)
  else if verification.is_paid == false then
    ({ success := false, event_type := "manual_recovery",
       error := some ("Payment not completed. Status: "
         ++ verification.payment_status) }, st)
  else
    let session_data : EventObject :=
      { id := session_id, metadata := verification.metadata }
    handle_checkout_completed session_data cb st

/-- The add-credits callback wired to the ledger, as the webhook route does:
success reports whether the ledger add succeeded. -/
def ledgerCallback (user_id : String) (credits : Int)
    (ttype description : String) (st : LedgerState) : Bool × LedgerState :=
  let (result, st2) := add_credits st user_id credits
    (if ttype == "purchase" then TransactionType.purchase
     else TransactionType.promotion) description
  (result.isOk, st2)

/-- Checkout metadata of the 150-credit starter-package purchase. -/
def packageMeta150 : EventMetadata :=
  { type := some "package", user_id := some "u1", total_credits := 150,
    package_id := "starter" }

/-- The completion event for session cs_1. -/
def checkoutCompletedEvent : StripeEvent :=
  { type := "checkout.session.completed",
    obj := { id := "cs_1", metadata := packageMeta150 } }

/-- The payment record of session cs_1 after it was completed and credited. -/
def creditedRecord : PaymentRecord :=
  { id := "p1", user_id := "u1", amount_cents := 999, credits_to_add := 150,
    status := PaymentRecordStatus.completed, provider := "stripe",
    provider_session_id := some "cs_1", provider_payment_id := some "pi_1",
    credits_added := true, credits_added_at := some 1,
    credit_transaction_id := some "tx0", completed_at := some 1,
    updated_at := 1 }

def creditedStore : List PaymentRecord := [creditedRecord]

/-- The ledger after the first, legitimate crediting of session cs_1. -/
def creditedLedger : LedgerState := { balance := 150, txLog := [tx150] }

/-- The provider-side view of session cs_1: paid, with the same metadata. -/
def providerSessions : List ProviderSession :=
  [{ id := "cs_1", payment_status := "paid", metadata := packageMeta150 }]

/-- A refund event, of a type `process_webhook` has no branch for. -/
def refundEvent : StripeEvent :=
  { type := "charge.refunded", obj := { id := "ch_1" } }

/-! ## Pricing and catalog — `shared/credits/config_loader.py`,
`shared/credits/pricing_service.py` -/

/-- `Package` dataclass (config_loader.py). `price_usd` (a Python float in
major units) is modelled as an exact rational; usage-limit and display fields
not read by the pricing computation are omitted. -/
structure Package where
  id : String
  name : String := ""
  description : String := ""
  credits : Int
  price_usd : ℚ
  active : Bool := true
deriving DecidableEq

/-- `Subscription` dataclass (config_loader.py), pricing-relevant fields. -/
structure Subscription where
  id : String
  name : String := ""
  credits_per_period : Int
  price_usd : ℚ
  interval : String := "month"
  active : Bool := true
deriving DecidableEq

/-- `Coupon` dataclass (config_loader.py); `max_uses` fields are not read by
the pricing computation and are omitted. Note the dataclass has no
max-discount field. -/
structure Coupon where
  code : String
  name : String := ""
  description : String := ""
  type : String := "percent"
  discount : ℚ := 0
  applies_to : String := "all"
  valid_items : List String := []
  min_purchase_usd : ℚ := 0
  valid_from : Option Nat := none
  valid_until : Option Nat := none
  active : Bool := true
deriving DecidableEq

/-- `Promotion` for the first-purchase bonus (config_loader.py);
`get_promotions` always constructs one, disabled by default. -/
structure Promotion where
  enabled : Bool := false
  bonus_percent : ℚ := 0
  max_bonus_credits : Int := 0
deriving DecidableEq

/-- The catalog data served by `CreditsConfigLoader`. -/
structure CreditsConfig where
  packages : List Package
  subscriptions : List Subscription := []
  coupons : List Coupon
  first_purchase_bonus : Promotion := {}
deriving DecidableEq

/-- `CreditsConfigLoader.get_package` (first package with the given id). -/
def get_package (config : CreditsConfig) (package_id : String) :
    Option Package :=
  config.packages.find? (fun p => p.id == package_id)

/-- `CreditsConfigLoader.get_subscription`. -/
def get_subscription (config : CreditsConfig) (subscription_id : String) :
    Option Subscription :=
  config.subscriptions.find? (fun s => s.id == subscription_id)

/-- Python `str.upper()`, modelled character-wise on the string's data. -/
def strUpper (s : String) : String :=
  String.mk (s.data.map Char.toUpper)

/-- `CreditsConfigLoader.get_coupon`: case-insensitive lookup by code
(`coupon.code.upper() == code.upper()`). -/
def get_coupon (config : CreditsConfig) (code : String) : Option Coupon :=
  config.coupons.find? (fun c => strUpper c.code == strUpper code)

/-- `PriceCalculation` dataclass (pricing_service.py); prices in exact
rationals, mirroring the source's float major units. -/
structure PriceCalculation where
  original_price : ℚ
  discount_amount : ℚ
  final_price : ℚ
  credits : Int
  bonus_credits : Int
  total_credits : Int
  coupon_applied : Option String := none
deriving DecidableEq

/-- `PricingService._is_coupon_valid_for_item`. -/
def is_coupon_valid_for_item (coupon : Coupon) (item_type item_id : String)
    (price : ℚ) (now : Nat) : Bool :=
  coupon.active &&
  (coupon.applies_to == "all" || coupon.applies_to == item_type) &&
  (coupon.valid_items.isEmpty || coupon.valid_items.contains item_id) &&
  decide (coupon.min_purchase_usd ≤ price) &&
  (match coupon.valid_from with
   | none => true
   | some t => decide (t ≤ now)) &&
  (match coupon.valid_until with
   | none => true
   | some t => decide (now ≤ t))

/-- `PricingService._calculate_discount`: percent-of-price, or a fixed amount
capped at the price; unknown types discount nothing. -/
def calculate_discount (coupon : Coupon) (price : ℚ) : ℚ :=
  if coupon.type == "percent" then price * (coupon.discount / 100)
  else if coupon.type == "fixed" then min coupon.discount price
  else 0

/-- `PricingService.calculate_package_price`. The first-purchase bonus
`int(credits * percent / 100)` truncates a non-negative value, i.e. floors. -/
def calculate_package_price (config : CreditsConfig) (now : Nat)
    (package_id : String) (coupon_code : Option String)
    (is_first_purchase : Bool) : Option PriceCalculation :=
  match get_package config package_id with
  | none => none
  | some package =>
    if package.active then
      let original_price := package.price_usd
      let dc : ℚ × Option String :=
        match coupon_code with
        | none => (0, none)
        | some code =>
          match get_coupon config code with
          | none => (0, none)
          | some coupon =>
            if is_coupon_valid_for_item coupon "packages" package_id
              original_price now
            then (calculate_discount coupon original_price, some code)
            else (0, none)
      let discount_amount := dc.1
      let bonus_credits : Int :=
        if is_first_purchase then
          if config.first_purchase_bonus.enabled then
            min ⌊(package.credits : ℚ)
              * (config.first_purchase_bonus.bonus_percent / 100)⌋
              config.first_purchase_bonus.max_bonus_credits
          else 0
        else 0
      let final_price := max 0 (original_price - discount_amount)
      some { original_price := original_price
             discount_amount := discount_amount
             final_price := final_price
             credits := package.credits
             bonus_credits := bonus_credits
             total_credits := package.credits + bonus_credits
             coupon_applied := dc.2 }
    else none

/-- `PricingService.calculate_subscription_price`. -/
def calculate_subscription_price (config : CreditsConfig) (now : Nat)
    (subscription_id : String) (coupon_code : Option String) :
    Option PriceCalculation :=
  match get_subscription config subscription_id with
  | none => none
  | some subscription =>
    if subscription.active then
      let original_price := subscription.price_usd
      let dc : ℚ × Option String :=
        match coupon_code with
        | none => (0, none)
        | some code =>
          match get_coupon config code with
          | none => (0, none)
          | some coupon =>
            if is_coupon_valid_for_item coupon "subscriptions" subscription_id
              original_price now
            then (calculate_discount coupon original_price, some code)
            else (0, none)
      let discount_amount := dc.1
      let final_price := max 0 (original_price - discount_amount)
      some { original_price := original_price
             discount_amount := discount_amount
             final_price := final_price
             credits := subscription.credits_per_period
             bonus_credits := 0
             total_credits := subscription.credits_per_period
             coupon_applied := dc.2 }
    else none

/-- `StripeService.create_package_checkout` line 133:
`amount_cents = int(price_calc.final_price * 100)` — the conversion to
integer minor units truncates; `final_price` is never negative, so `int`
is the floor. -/
def create_checkout_amount_cents (pc : PriceCalculation) : Int :=
  ⌊pc.final_price * 100⌋

/-- The distinct outcomes of `PricingService.validate_coupon`, with the data
each message interpolates. -/
inductive CouponMessage where
  | invalidCode
  | noLongerActive
  | cannotBeUsedFor (item_type : String)
  | notValidForItem
  | minimumPurchaseRequired (min_purchase_usd : ℚ)
  | notYetActive
  | hasExpired
  | applied (coupon_type : String) (discount : ℚ)
deriving DecidableEq

/-- `PricingService.validate_coupon`. -/
def validate_coupon (config : CreditsConfig) (now : Nat)
    (coupon_code item_type item_id : String) (price : ℚ) :
    Bool × CouponMessage × Option Coupon :=
  match get_coupon config coupon_code with
  | none => (false, CouponMessage.invalidCode, none)
  | some coupon =>
    if coupon.active = false then
      (false, CouponMessage.noLongerActive, none)
    else if coupon.applies_to != "all" && coupon.applies_to != item_type then
      (false, CouponMessage.cannotBeUsedFor item_type, none)
    else if !coupon.valid_items.isEmpty
        && !(coupon.valid_items.contains item_id) then
      (false, CouponMessage.notValidForItem, none)
    else if price < coupon.min_purchase_usd then
      (false, CouponMessage.minimumPurchaseRequired coupon.min_purchase_usd,
        none)
    else if (match coupon.valid_from with
             | some t => decide (now < t)
             | none => false) then
      (false, CouponMessage.notYetActive, none)
    else if (match coupon.valid_until with
             | some t => decide (t < now)
             | none => false) then
      (false, CouponMessage.hasExpired, none)
    else (true, CouponMessage.applied coupon.type coupon.discount, some coupon)

/-- Demo catalog: a 150-credit package at 20.00 USD, a 10-percent coupon and
a fixed 50.00 coupon. -/
def starterPackage : Package :=
  { id := "starter", name := "Starter", credits := 150, price_usd := 20 }

def welcomeCoupon : Coupon :=
  { code := "WELCOME10", type := "percent", discount := 10 }

def bigFixedCoupon : Coupon :=
  { code := "BIGSAVE", type := "fixed", discount := 50 }

def demoConfig : CreditsConfig :=
  { packages := [starterPackage], coupons := [welcomeCoupon, bigFixedCoupon] }

/-- The calculation for the starter package with the 10-percent coupon. -/
def welcomeCalc : PriceCalculation :=
  { original_price := 20, discount_amount := 2, final_price := 18,
    credits := 150, bonus_credits := 0, total_credits := 150,
    coupon_applied := some "welcome10" }

/-- The calculation for the starter package with the fixed 50.00 coupon:
the discount is capped at the 20.00 price, making the final price 0. -/
def fixedCalc : PriceCalculation :=
  { original_price := 20, discount_amount := 20, final_price := 0,
    credits := 150, bonus_credits := 0, total_credits := 150,
    coupon_applied := some "BIGSAVE" }

/-- A package priced 19.99 USD, exposing fractional-cent discounts. -/
def package1999 : Package :=
  { id := "p1999", name := "Promo", credits := 100, price_usd := 1999/100 }

def tenPercentCoupon : Coupon :=
  { code := "TEN", type := "percent", discount := 10 }

def config1999 : CreditsConfig :=
  { packages := [package1999], coupons := [tenPercentCoupon] }

/-- The calculation for the 19.99 package with the 10-percent coupon:
discount 1.999 USD, final price 17.991 USD. -/
def calc1999 : PriceCalculation :=
  { original_price := 1999/100, discount_amount := 1999/1000,
    final_price := 17991/1000, credits := 100, bonus_credits := 0,
    total_credits := 100, coupon_applied := some "TEN" }

/-! ## Theorems -/

theorem sumAmounts_cons (t : CreditTransaction) (l : List CreditTransaction) :
    sumAmounts (t :: l) = t.amount + sumAmounts l := by
  simp [sumAmounts]

/-- C2: counterexample — the tracker performs no forward-only validation:
`mark_completed` on a record whose status is FAILED moves it straight to
COMPLETED, resurrecting the failed attempt. -/
theorem mark_completed_resurrects_failed_record :
    failedRecord.status = PaymentRecordStatus.failed ∧
    (mark_completed [failedRecord] 5 "p1" none).1.map PaymentRecord.status
      = some PaymentRecordStatus.completed := by
  constructor <;> rfl

/-- C2 (amended): the `mark_*` operations validate nothing: each one loads the
record by id and unconditionally sets its target status; in particular
`mark_completed` sets COMPLETED on every existing record regardless of its
current status, including FAILED and EXPIRED. -/
theorem mark_completed_sets_completed_unconditionally
    (store : List PaymentRecord) (now : Nat) (pid : String)
    (ppid : Option String) (p : PaymentRecord)
    (h : get_by_id store pid = some p) :
    (mark_completed store now pid ppid).1 =
      some { p with
        status := PaymentRecordStatus.completed
        completed_at := some now
        updated_at := now
        provider_payment_id :=
          updateProviderPaymentId p.provider_payment_id ppid } := by
  unfold mark_completed
  rw [h]

theorem mark_completed_sets_completed_unconditionally_witness :
    (mark_completed [failedRecord] 5 "p1" none).1 =
      some { failedRecord with
        status := PaymentRecordStatus.completed
        completed_at := some 5
        updated_at := 5
        provider_payment_id :=
          updateProviderPaymentId failedRecord.provider_payment_id none } :=
  mark_completed_sets_completed_unconditionally [failedRecord] 5 "p1" none
    failedRecord rfl

/-- C9: every tracker mutation on a payment id absent from the store returns
`none` and leaves the store unchanged. -/
theorem mark_ops_noop_on_missing_id
    (store : List PaymentRecord) (now : Nat) (pid : String)
    (ppid ctid em ec reason : Option String) (amt : Int) (pf : Bool)
    (h : get_by_id store pid = none) :
    mark_processing store now pid ppid = (none, store) ∧
    mark_completed store now pid ppid = (none, store) ∧
    mark_credits_added store now pid ctid = (none, store) ∧
    mark_failed store now pid em ec = (none, store) ∧
    mark_expired store now pid = (none, store) ∧
    mark_refunded store now pid amt reason pf = (none, store) := by
  unfold mark_processing mark_completed mark_credits_added mark_failed
    mark_expired mark_refunded
  rw [h]
  exact ⟨rfl, rfl, rfl, rfl, rfl, rfl⟩

theorem mark_ops_noop_on_missing_id_witness :
    mark_processing [failedRecord] 3 "p9" none = (none, [failedRecord]) ∧
    mark_completed [failedRecord] 3 "p9" none = (none, [failedRecord]) ∧
    mark_credits_added [failedRecord] 3 "p9" none = (none, [failedRecord]) ∧
    mark_failed [failedRecord] 3 "p9" none none = (none, [failedRecord]) ∧
    mark_expired [failedRecord] 3 "p9" = (none, [failedRecord]) ∧
    mark_refunded [failedRecord] 3 "p9" 0 none false = (none, [failedRecord]) :=
  mark_ops_noop_on_missing_id [failedRecord] 3 "p9" none none none none none 0
    false rfl

theorem containsInsufficient_insufficient_credits :
    containsInsufficient "insufficient credits" = true := by
  decide

/-- C3: `deduct_credits` fails with `InvalidTransaction` when the amount is
non-positive, and with `InsufficientCredits` carrying `required`, `available`
and `shortage = required - available` when the balance is below the amount;
in both failure cases no transaction is recorded and the balance and the
transaction log are returned unchanged. -/
theorem deduct_credits_failure_semantics (st : LedgerState) (u : String)
    (a : Int) (d : String) :
    (a ≤ 0 → deduct_credits st u a d =
      (Except.error
        (CreditError.invalidTransaction "Deduction amount must be positive"),
        st)) ∧
    (0 < a → st.balance < a → deduct_credits st u a d =
      (Except.error
        (CreditError.insufficientCredits a st.balance (a - st.balance)),
        st)) := by
  constructor
  · intro ha
    simp [deduct_credits, ha]
  · intro ha hb
    have ha2 : ¬ a ≤ 0 := not_le.mpr ha
    simp [deduct_credits, ha2, rpc_deduct_user_credits, hb,
      containsInsufficient_insufficient_credits, mkInsufficientCreditsError]

theorem deduct_credits_failure_semantics_witness :
    deduct_credits (LedgerState.mk 3 []) "u1" 0 "generation" =
      (Except.error
        (CreditError.invalidTransaction "Deduction amount must be positive"),
        LedgerState.mk 3 []) ∧
    deduct_credits (LedgerState.mk 3 []) "u1" 5 "generation" =
      (Except.error (CreditError.insufficientCredits 5 3 2),
        LedgerState.mk 3 []) := by
  constructor
  · exact (deduct_credits_failure_semantics (LedgerState.mk 3 []) "u1" 0
      "generation").1 (by decide)
  · exact (deduct_credits_failure_semantics (LedgerState.mk 3 []) "u1" 5
      "generation").2 (by decide) (by decide)

/-- C4: every transaction produced by a successful add or deduct satisfies
`balance_after = balance_before + amount` (with the deduction amount recorded
negatively), each success moves the balance by exactly the signed amount and
appends the transaction to the log, and hence over any sequence of add/deduct
calls the quantity `balance - Σ(signed log amounts)` is invariant: the final
balance equals the initial balance plus the sum of the signed amounts of the
recorded transactions. -/
theorem transaction_balance_invariant (st : LedgerState) (u : String) :
    (∀ a t d tx st2, add_credits st u a t d = (Except.ok tx, st2) →
      tx.balance_after = tx.balance_before + tx.amount ∧
      tx.amount = a ∧
      st2.balance = st.balance + tx.amount ∧
      st2.txLog = tx :: st.txLog) ∧
    (∀ a d tx st2, deduct_credits st u a d = (Except.ok tx, st2) →
      tx.balance_after = tx.balance_before + tx.amount ∧
      tx.amount = -a ∧
      st2.balance = st.balance + tx.amount ∧
      st2.txLog = tx :: st.txLog) ∧
    (∀ ops, (applyOps st u ops).balance - sumAmounts (applyOps st u ops).txLog
      = st.balance - sumAmounts st.txLog) := by
  refine ⟨?_, ?_, ?_⟩
  · intro a t d tx st2 h
    by_cases ha : a ≤ 0
    · simp [add_credits, ha] at h
    · simp [add_credits, ha, rpc_add_user_credits, validate_balance_after]
        at h
      obtain ⟨h1, h2⟩ := h
      subst h1
      subst h2
      refine ⟨rfl, rfl, rfl, rfl⟩
  · intro a d tx st2 h
    by_cases ha : a ≤ 0
    · simp [deduct_credits, ha] at h
    · by_cases hb : st.balance < a
      · simp [deduct_credits, ha, rpc_deduct_user_credits, hb] at h
      · simp [deduct_credits, ha, rpc_deduct_user_credits, hb,
          validate_balance_after, Int.sub_eq_add_neg] at h
        obtain ⟨h1, h2⟩ := h
        subst h1
        subst h2
        refine ⟨rfl, rfl, rfl, rfl⟩
  · intro ops
    induction ops generalizing st with
    | nil => rfl
    | cons op rest ih =>
      have hstep : (applyOp st u op).balance -
          sumAmounts (applyOp st u op).txLog
          = st.balance - sumAmounts st.txLog := by
        cases op with
        | add a t d =>
          by_cases ha : a ≤ 0
          · simp [applyOp, add_credits, ha]
          · simp [applyOp, add_credits, ha, rpc_add_user_credits,
              validate_balance_after, sumAmounts_cons]
            ring
        | deduct a d =>
          by_cases ha : a ≤ 0
          · simp [applyOp, deduct_credits, ha]
          · by_cases hb : st.balance < a
            · simp [applyOp, deduct_credits, ha, rpc_deduct_user_credits, hb]
            · simp [applyOp, deduct_credits, ha, rpc_deduct_user_credits, hb,
                validate_balance_after, Int.sub_eq_add_neg, sumAmounts_cons]
              ring
      have hfold : applyOps st u (op :: rest)
          = applyOps (applyOp st u op) u rest := rfl
      rw [hfold, ih (applyOp st u op), hstep]

/-- C1: the checkout-completed path of the Event Correlator performs no
`is_duplicate` check before adding credits: for session cs_1, whose stored
record already has `credits_added = true` (so `is_duplicate` is true),
delivering the completion event again adds the 150 credits a second time,
moving the balance from 150 to 300 instead of leaving it unchanged. -/
theorem checkout_completed_replay_double_credits :
    is_duplicate creditedStore "cs_1" = true ∧
    creditedLedger.balance = 150 ∧
    (handle_checkout_completed checkoutCompletedEvent.obj ledgerCallback
      creditedLedger).2.balance = 300 ∧
    (handle_checkout_completed checkoutCompletedEvent.obj ledgerCallback
      creditedLedger).1.credits_added = 150 := by
  refine ⟨rfl, rfl, rfl, rfl⟩

/-- C5: `process_missed_payment` re-verifies the session against the provider
but then calls `_handle_checkout_completed` without the idempotency check:
for the already-credited session cs_1 (`is_duplicate` true) it adds the 150
credits again, moving the balance from 150 to 300. -/
theorem process_missed_payment_skips_idempotency_check :
    is_duplicate creditedStore "cs_1" = true ∧
    creditedLedger.balance = 150 ∧
    (process_missed_payment providerSessions "cs_1" ledgerCallback
      creditedLedger).2.balance = 300 ∧
    (process_missed_payment providerSessions "cs_1" ledgerCallback
      creditedLedger).1.success = true := by
  refine ⟨rfl, rfl, rfl, rfl⟩

/-- C6: counterexample — refund handling is silent on the ledger side:
`process_webhook` has no branch for refund events (they fall through as
"Event type not handled" with the callback state untouched), and
`mark_refunded` updates only the payment record, so no ledger entry is ever
produced for a refund. -/
theorem refund_handling_makes_no_ledger_entry :
    (process_webhook [] refundEvent ledgerCallback creditedLedger).2
      = creditedLedger ∧
    (process_webhook [] refundEvent ledgerCallback creditedLedger).1.action_taken
      = some "Event type not handled" ∧
    (mark_refunded creditedStore 9 "p1" 999 (some "fraud") false).1.map
      PaymentRecord.status = some PaymentRecordStatus.refunded := by
  refine ⟨rfl, rfl, rfl⟩

/-- C6 (amended): `mark_refunded` on an existing record sets status REFUNDED
(or PARTIALLY_REFUNDED when partial) and records the refund amount, reason and
time — but the refund handling produces no ledger entry: the webhook
processor has no refund branch, so a refund event leaves the ledger-side
callback state unchanged. -/
theorem mark_refunded_sets_status_but_no_ledger_entry
    (store : List PaymentRecord) (now : Nat) (pid : String) (amt : Int)
    (reason : Option String) (pf : Bool) (p : PaymentRecord)
    (h : get_by_id store pid = some p) :
    (mark_refunded store now pid amt reason pf).1 =
      some { p with
        status := if pf then PaymentRecordStatus.partiallyRefunded
          else PaymentRecordStatus.refunded
        refund_amount_cents := amt
        refund_reason := reason
        refunded_at := some now
        updated_at := now } ∧
    (∀ (σ : Type) (cb : String → Int → String → String → σ → Bool × σ)
      (st : σ) (subs : List (String × EventMetadata)) (obj : EventObject),
      (process_webhook subs { type := "charge.refunded", obj := obj } cb st).2
        = st) := by
  constructor
  · unfold mark_refunded
    rw [h]
  · intro σ cb st subs obj
    rfl

theorem mark_refunded_sets_status_but_no_ledger_entry_witness :
    ((mark_refunded creditedStore 9 "p1" 999 (some "fraud") false).1 =
      some { creditedRecord with
        status := if false then PaymentRecordStatus.partiallyRefunded
          else PaymentRecordStatus.refunded
        refund_amount_cents := 999
        refund_reason := some "fraud"
        refunded_at := some 9
        updated_at := 9 } ∧
    (∀ (σ : Type) (cb : String → Int → String → String → σ → Bool × σ)
      (st : σ) (subs : List (String × EventMetadata)) (obj : EventObject),
      (process_webhook subs { type := "charge.refunded", obj := obj } cb st).2
        = st)) :=
  mark_refunded_sets_status_but_no_ledger_entry creditedStore 9 "p1" 999
    (some "fraud") false creditedRecord rfl

theorem transaction_balance_invariant_witness :
    (tx150.balance_after = tx150.balance_before + tx150.amount ∧
      tx150.amount = 150 ∧
      (LedgerState.mk 150 [tx150]).balance
        = (LedgerState.mk 0 []).balance + tx150.amount ∧
      (LedgerState.mk 150 [tx150]).txLog
        = tx150 :: (LedgerState.mk 0 []).txLog) ∧
    (applyOps (LedgerState.mk 0 []) "u1"
        [LedgerOp.add 150 TransactionType.purchase "first purchase",
          LedgerOp.deduct 50 "generation"]).balance
      - sumAmounts (applyOps (LedgerState.mk 0 []) "u1"
        [LedgerOp.add 150 TransactionType.purchase "first purchase",
          LedgerOp.deduct 50 "generation"]).txLog
      = (LedgerState.mk 0 []).balance - sumAmounts (LedgerState.mk 0 []).txLog :=
  ⟨(transaction_balance_invariant (LedgerState.mk 0 []) "u1").1 150
      TransactionType.purchase "first purchase" tx150
      (LedgerState.mk 150 [tx150]) rfl,
    (transaction_balance_invariant (LedgerState.mk 0 []) "u1").2.2
      [LedgerOp.add 150 TransactionType.purchase "first purchase",
        LedgerOp.deduct 50 "generation"]⟩

/-- C7: for every package or subscription and every coupon valid for it, the
discount is price × percent/100 for a percent coupon and the fixed amount
capped at the price for a fixed coupon (the Coupon model carries no
max-discount field, so that optional cap never binds), and
`final_price = max 0 (original − discount)`. -/
theorem discount_calculation_correct (config : CreditsConfig) (now : Nat) :
    (∀ pid code package coupon pc,
      get_package config pid = some package →
      get_coupon config code = some coupon →
      is_coupon_valid_for_item coupon "packages" pid package.price_usd now
        = true →
      calculate_package_price config now pid (some code) false = some pc →
      pc.original_price = package.price_usd ∧
      (coupon.type = "percent" →
        pc.discount_amount = package.price_usd * (coupon.discount / 100)) ∧
      (coupon.type = "fixed" →
        pc.discount_amount = min coupon.discount package.price_usd ∧
        pc.discount_amount ≤ package.price_usd) ∧
      pc.final_price = max 0 (pc.original_price - pc.discount_amount)) ∧
    (∀ sid code subscription coupon pc,
      get_subscription config sid = some subscription →
      get_coupon config code = some coupon →
      is_coupon_valid_for_item coupon "subscriptions" sid
        subscription.price_usd now = true →
      calculate_subscription_price config now sid (some code) = some pc →
      pc.original_price = subscription.price_usd ∧
      (coupon.type = "percent" →
        pc.discount_amount = subscription.price_usd * (coupon.discount / 100)) ∧
      (coupon.type = "fixed" →
        pc.discount_amount = min coupon.discount subscription.price_usd ∧
        pc.discount_amount ≤ subscription.price_usd) ∧
      pc.final_price = max 0 (pc.original_price - pc.discount_amount)) := by
  constructor
  · intro pid code package coupon pc hp hc hv hcalc
    unfold calculate_package_price at hcalc
    rw [hp] at hcalc
    cases hact : package.active with
    | false => simp [hact] at hcalc
    | true =>
      simp only [hact, if_true, hc, hv, if_pos] at hcalc
      simp only [Option.some.injEq] at hcalc
      subst hcalc
      refine ⟨rfl, ?_, ?_, rfl⟩
      · intro ht
        simp [calculate_discount, ht]
      · intro ht
        constructor
        · simp [calculate_discount, ht,
            (by decide : (("fixed" : String) == "percent") = false)]
        · simp only [calculate_discount, ht,
            (by decide : (("fixed" : String) == "percent") = false),
            Bool.false_eq_true, if_false,
            (by decide : (("fixed" : String) == "fixed") = true), if_true]
          exact min_le_right _ _
  · intro sid code subscription coupon pc hs hc hv hcalc
    unfold calculate_subscription_price at hcalc
    rw [hs] at hcalc
    cases hact : subscription.active with
    | false => simp [hact] at hcalc
    | true =>
      simp only [hact, if_true, hc, hv, if_pos] at hcalc
      simp only [Option.some.injEq] at hcalc
      subst hcalc
      refine ⟨rfl, ?_, ?_, rfl⟩
      · intro ht
        simp [calculate_discount, ht]
      · intro ht
        constructor
        · simp [calculate_discount, ht,
            (by decide : (("fixed" : String) == "percent") = false)]
        · simp only [calculate_discount, ht,
            (by decide : (("fixed" : String) == "percent") = false),
            Bool.false_eq_true, if_false,
            (by decide : (("fixed" : String) == "fixed") = true), if_true]
          exact min_le_right _ _

theorem discount_calculation_correct_witness :
    (welcomeCalc.original_price = 20 ∧ welcomeCalc.discount_amount = 2 ∧
      welcomeCalc.final_price = 18) ∧
    (fixedCalc.discount_amount = 20 ∧ fixedCalc.final_price = 0) := by
  have hw := (discount_calculation_correct demoConfig 0).1 "starter"
    "welcome10" starterPackage welcomeCoupon welcomeCalc rfl rfl rfl
    (by
      simp [calculate_package_price, demoConfig, get_package, get_coupon,
        strUpper, starterPackage, welcomeCoupon, bigFixedCoupon,
        is_coupon_valid_for_item, calculate_discount, welcomeCalc]
      norm_num)
  have hf := (discount_calculation_correct demoConfig 0).1 "starter"
    "BIGSAVE" starterPackage bigFixedCoupon fixedCalc rfl rfl rfl
    (by
      simp [calculate_package_price, demoConfig, get_package, get_coupon,
        strUpper, starterPackage, welcomeCoupon, bigFixedCoupon,
        is_coupon_valid_for_item, calculate_discount, fixedCalc]
      norm_num)
  refine ⟨⟨hw.1, ?_, ?_⟩, ?_, ?_⟩
  · rw [hw.2.1 rfl]
    norm_num [starterPackage, welcomeCoupon]
  · rw [hw.2.2.2, hw.1, hw.2.1 rfl]
    norm_num [starterPackage, welcomeCoupon]
  · rw [(hf.2.2.1 rfl).1]
    norm_num [starterPackage, bigFixedCoupon]
  · rw [hf.2.2.2, hf.1, (hf.2.2.1 rfl).1]
    norm_num [starterPackage, bigFixedCoupon]

/-- C8: counterexample — the pricing arithmetic is carried out on major-unit
(USD) values, not integer minor units: 10% off the 19.99 package yields a
discount of 1.999 USD — 199.9 minor units, not an integer — and checkout
creation truncates final_price × 100 = 1799.1 down to 1799 cents, a rounding
step in the middle of the payment flow rather than at the display boundary. -/
theorem pricing_not_integer_minor_units :
    calculate_package_price config1999 0 "p1999" (some "TEN") false
      = some calc1999 ∧
    (calc1999.discount_amount * 100).den ≠ 1 ∧
    create_checkout_amount_cents calc1999 = 1799 ∧
    (create_checkout_amount_cents calc1999 : ℚ)
      ≠ calc1999.final_price * 100 := by
  refine ⟨?_, ?_, ?_, ?_⟩
  · simp [calculate_package_price, config1999, get_package, get_coupon,
      strUpper, package1999, tenPercentCoupon, is_coupon_valid_for_item,
      calculate_discount, calc1999]
    norm_num
  · norm_num [calc1999]
  · norm_num [create_checkout_amount_cents, calc1999]
  · norm_num [create_checkout_amount_cents, calc1999]

/-- C8 (amended): monetary amounts in the pricing calculator are major-unit
values (the source's float USD prices, modelled exactly); the one conversion
to integer minor units is the truncation `int(final_price * 100)` at checkout
creation, so for a package with a valid percent coupon the charged minor-unit
amount is ⌊max 0 (price − price·d/100) · 100⌋ — fractional minor units are
dropped there, before the provider boundary, not at display. -/
theorem checkout_amount_truncates_at_checkout_creation
    (config : CreditsConfig) (now : Nat) (pid code : String)
    (package : Package) (coupon : Coupon) (pc : PriceCalculation)
    (hp : get_package config pid = some package)
    (hc : get_coupon config code = some coupon)
    (hv : is_coupon_valid_for_item coupon "packages" pid package.price_usd now
      = true)
    (ht : coupon.type = "percent")
    (hcalc : calculate_package_price config now pid (some code) false
      = some pc) :
    create_checkout_amount_cents pc =
      ⌊(max 0 (package.price_usd - package.price_usd * (coupon.discount / 100)))
        * 100⌋ := by
  unfold calculate_package_price at hcalc
  rw [hp] at hcalc
  cases hact : package.active with
  | false => simp [hact] at hcalc
  | true =>
    simp only [hact, if_true, hc, hv, if_pos] at hcalc
    simp only [Option.some.injEq] at hcalc
    subst hcalc
    simp [create_checkout_amount_cents, calculate_discount, ht]

theorem checkout_amount_truncates_at_checkout_creation_witness :
    create_checkout_amount_cents calc1999 =
      ⌊(max 0 ((1999/100 : ℚ) - (1999/100) * (10 / 100))) * 100⌋ ∧
    create_checkout_amount_cents calc1999 = 1799 := by
  constructor
  · exact checkout_amount_truncates_at_checkout_creation config1999 0 "p1999"
      "TEN" package1999 tenPercentCoupon calc1999 rfl rfl
      (by norm_num [is_coupon_valid_for_item, tenPercentCoupon, package1999])
      rfl
      (by
        simp [calculate_package_price, config1999, get_package, get_coupon,
          strUpper, package1999, tenPercentCoupon, is_coupon_valid_for_item,
          calculate_discount, calc1999]
        norm_num)
  · norm_num [create_checkout_amount_cents, calc1999]

/-- C10: coupon lookup is case-insensitive — two codes with the same
upper-cased form resolve to the same coupon, so coupon validation returns
identical results and discount application yields the same prices and credits
(the `coupon_applied` field merely echoes the code as supplied). -/
theorem get_coupon_case_insensitive (config : CreditsConfig) (c c2 : String)
    (h : strUpper c = strUpper c2) :
    get_coupon config c = get_coupon config c2 ∧
    (∀ now item_type item_id price,
      validate_coupon config now c item_type item_id price
        = validate_coupon config now c2 item_type item_id price) ∧
    (∀ now pid fp,
      (calculate_package_price config now pid (some c) fp).map
        (fun x => (x.original_price, x.discount_amount, x.final_price,
          x.total_credits))
        = (calculate_package_price config now pid (some c2) fp).map
        (fun x => (x.original_price, x.discount_amount, x.final_price,
          x.total_credits))) := by
  have hg : get_coupon config c = get_coupon config c2 := by
    unfold get_coupon
    rw [h]
  refine ⟨hg, ?_, ?_⟩
  · intro now item_type item_id price
    unfold validate_coupon
    rw [hg]
  · intro now pid fp
    cases hp : get_package config pid with
    | none => simp [calculate_package_price, hp]
    | some package =>
      cases hact : package.active with
      | false => simp [calculate_package_price, hp, hact]
      | true =>
        cases hc : get_coupon config c2 with
        | none => simp [calculate_package_price, hp, hact, hg, hc]
        | some coupon =>
          cases hv : is_coupon_valid_for_item coupon "packages" pid
            package.price_usd now with
          | false => simp [calculate_package_price, hp, hact, hg, hc, hv]
          | true => simp [calculate_package_price, hp, hact, hg, hc, hv]

theorem get_coupon_case_insensitive_witness :
    get_coupon demoConfig "welcome10" = get_coupon demoConfig "WELCOME10" ∧
    validate_coupon demoConfig 0 "welcome10" "packages" "starter" 20
      = validate_coupon demoConfig 0 "WELCOME10" "packages" "starter" 20 ∧
    (calculate_package_price demoConfig 0 "starter" (some "welcome10")
      false).map (fun x => (x.original_price, x.discount_amount,
        x.final_price, x.total_credits))
      = (calculate_package_price demoConfig 0 "starter" (some "WELCOME10")
      false).map (fun x => (x.original_price, x.discount_amount,
        x.final_price, x.total_credits)) := by
  have h := get_coupon_case_insensitive demoConfig "welcome10" "WELCOME10" rfl
  exact ⟨h.1, h.2.1 0 "packages" "starter" 20, h.2.2 0 "starter" false⟩

end CrispyPancake
